import Mathlib

/-!
Shallow embedding of the ocicrypt configuration constructors
(src/config/constructors.go, package config).

Binary blobs ([]byte) are modelled as lists of naturals; the Go
map[string][][]byte parameter sets are modelled as association lists in
insertion order of the Go map literal, with lookup by key; a Go
*EncryptConfig / *DecryptConfig pointer (which may be nil in the
zero-value CryptoConfig{} returned on error) is modelled as an Option;
a (CryptoConfig, error) return is modelled as Except String CryptoConfig
carrying the exact errors.New message.
-/

namespace Ocicrypt

/-- A single opaque binary blob, Go []byte. -/
abbrev Bytes := List Nat

/-- A parameter set, Go map[string][][]byte, as an association list. -/
abbrev Params := List (String × List Bytes)

/-- Look a key up in a parameter set, Go m[k] access returning nil when absent. -/
def Params.find (p : Params) (k : String) : Option (List Bytes) :=
  List.lookup k p

/-- DecryptConfig from the repository's config package: it owns one
parameter set with the material needed to decrypt. -/
structure DecryptConfig where
  Parameters : Params := []
deriving Repr, DecidableEq

/-- EncryptConfig from the repository's config package: one parameter set
plus an embedded DecryptConfig value. -/
structure EncryptConfig where
  Parameters : Params
  DecryptConfig : DecryptConfig
deriving Repr, DecidableEq

/-- CryptoConfig aggregates pointers to one EncryptConfig and one
DecryptConfig; either pointer may be nil (the zero value). -/
structure CryptoConfig where
  EncryptConfig : Option EncryptConfig := none
  DecryptConfig : Option DecryptConfig := none
deriving Repr, DecidableEq

/-- Message of errors.New raised on a modules/pins length mismatch. -/
def errModulesPinsLength : String := "Length of modules should match length of pins"

/-- Message of errors.New raised when more than (or fewer than) one PKCS11 module is supplied. -/
def errSingleModule : String := "experimental, just support single module"

/-- Message of errors.New raised on a privKeys/privKeysPasswords length mismatch. -/
def errPrivKeysLength : String := "Length of privKeys should match length of privKeysPasswords"

/-- Classification of an error message under the spec's InvalidArgument
condition (mismatched paired-sequence lengths). -/
def isInvalidArgument (e : String) : Bool :=
  e == errModulesPinsLength || e == errPrivKeysLength

/-- Classification of an error message under the spec's
UnsupportedConfiguration condition (PKCS11 single-module restriction). -/
def isUnsupportedConfiguration (e : String) : Bool :=
  e == errSingleModule

/-- EncryptWithJwe returns a CryptoConfig to encrypt with jwe public keys. -/
def EncryptWithJwe (pubKeys : List Bytes) : Except String CryptoConfig :=
  let dc : DecryptConfig := {}
  let ep : Params := [("pubkeys", pubKeys)]
  .ok { EncryptConfig := some { Parameters := ep, DecryptConfig := dc },
        DecryptConfig := some dc }

/-- EncryptWithPkcs7 returns a CryptoConfig to encrypt with pkcs7 x509 certs. -/
def EncryptWithPkcs7 (x509s : List Bytes) : Except String CryptoConfig :=
  let dc : DecryptConfig := {}
  let ep : Params := [("x509s", x509s)]
  .ok { EncryptConfig := some { Parameters := ep, DecryptConfig := dc },
        DecryptConfig := some dc }

/-- EncryptWithGpg returns a CryptoConfig to encrypt with configured gpg parameters. -/
def EncryptWithGpg (gpgRecipients : List Bytes) (gpgPubRingFile : Bytes) :
    Except String CryptoConfig :=
  let dc : DecryptConfig := {}
  let ep : Params := [("gpg-recipients", gpgRecipients),
                      ("gpg-pubkeyringfile", [gpgPubRingFile])]
  .ok { EncryptConfig := some { Parameters := ep, DecryptConfig := dc },
        DecryptConfig := some dc }

/-- EncryptWithPkcs11 returns a CryptoConfig to encrypt with configured
PKCS11 parameters; it validates the modules/pins pairing and the
experimental single-module restriction, in that order. -/
def EncryptWithPkcs11 (modules : List Bytes) (pins : List Bytes) :
    Except String CryptoConfig :=
  if modules.length ≠ pins.length then
    .error errModulesPinsLength
  else if modules.length ≠ 1 then
    .error errSingleModule
  else
    let dc : DecryptConfig := {}
    let ep : Params := [("modules", modules), ("pins", pins)]
    .ok { EncryptConfig := some { Parameters := ep, DecryptConfig := dc },
          DecryptConfig := some dc }

/-- DecryptWithPrivKeys returns a CryptoConfig to decrypt with configured
private keys; it validates the privKeys/privKeysPasswords pairing. -/
def DecryptWithPrivKeys (privKeys : List Bytes) (privKeysPasswords : List Bytes) :
    Except String CryptoConfig :=
  if privKeys.length ≠ privKeysPasswords.length then
    .error errPrivKeysLength
  else
    let dc : DecryptConfig :=
      { Parameters := [("privkeys", privKeys),
                       ("privkeys-passwords", privKeysPasswords)] }
    let ep : Params := []
    .ok { EncryptConfig := some { Parameters := ep, DecryptConfig := dc },
          DecryptConfig := some dc }

/-- DecryptWithX509s returns a CryptoConfig to decrypt with configured x509 certs. -/
def DecryptWithX509s (x509s : List Bytes) : Except String CryptoConfig :=
  let dc : DecryptConfig := { Parameters := [("x509s", x509s)] }
  let ep : Params := []
  .ok { EncryptConfig := some { Parameters := ep, DecryptConfig := dc },
        DecryptConfig := some dc }

/-- DecryptWithGpgPrivKeys returns a CryptoConfig to decrypt with configured
gpg private keys. -/
def DecryptWithGpgPrivKeys (gpgPrivKeys : List Bytes) (gpgPrivKeysPwds : List Bytes) :
    Except String CryptoConfig :=
  let dc : DecryptConfig :=
    { Parameters := [("gpg-privatekeys", gpgPrivKeys),
                     ("gpg-privatekeys-passwords", gpgPrivKeysPwds)] }
  let ep : Params := []
  .ok { EncryptConfig := some { Parameters := ep, DecryptConfig := dc },
        DecryptConfig := some dc }

/-- DecryptWithPkcs11 returns a CryptoConfig to decrypt with configured
pkcs11 modules; unlike the encrypt constructor it performs no validation. -/
def DecryptWithPkcs11 (modules : List Bytes) (pins : List Bytes) :
    Except String CryptoConfig :=
  let dc : DecryptConfig := { Parameters := [("modules", modules), ("pins", pins)] }
  let ep : Params := []
  .ok { EncryptConfig := some { Parameters := ep, DecryptConfig := dc },
        DecryptConfig := some dc }

/-- Look a key up in the encrypt-side parameter set of a constructor's result. -/
def encFind (r : Except String CryptoConfig) (k : String) : Option (List Bytes) :=
  match r with
  | .ok cfg =>
    match cfg.EncryptConfig with
    | some ec => ec.Parameters.find k
    | none => none
  | .error _ => none

/-- Look a key up in the decrypt-side parameter set of a constructor's result. -/
def decFind (r : Except String CryptoConfig) (k : String) : Option (List Bytes) :=
  match r with
  | .ok cfg =>
    match cfg.DecryptConfig with
    | some dc => dc.Parameters.find k
    | none => none
  | .error _ => none

/-- Length of an optional blob sequence, used to compare paired lookups. -/
def optLen (o : Option (List Bytes)) : Option Nat :=
  o.map List.length

/-- A constructor result succeeded. -/
def isOkResult (r : Except String CryptoConfig) : Bool :=
  match r with
  | .ok _ => true
  | .error _ => false

/-- The decrypt configuration embedded in the encrypt configuration agrees
with the aggregate's top-level decrypt configuration. -/
def dcConsistent (cfg : CryptoConfig) : Prop :=
  cfg.EncryptConfig.map EncryptConfig.DecryptConfig = cfg.DecryptConfig

/-- Look a key up in the decrypt parameter set embedded inside the encrypt
configuration of a constructor's result. -/
def encEmbeddedDecFind (r : Except String CryptoConfig) (k : String) : Option (List Bytes) :=
  match r with
  | .ok cfg =>
    match cfg.EncryptConfig with
    | some ec => ec.DecryptConfig.Parameters.find k
    | none => none
  | .error _ => none

/-- A successful constructor result has its embedded and top-level decrypt
configurations in agreement; an error result is vacuously consistent. -/
def resultConsistent (r : Except String CryptoConfig) : Prop :=
  match r with
  | .ok cfg => dcConsistent cfg
  | .error _ => True

end Ocicrypt

namespace Ocicrypt

/-- Claim C1, counterexample: DecryptWithPkcs11 succeeds on a 2-module,
1-pin input, so a successfully returned configuration can map the keys
modules and pins to sequences of unequal length, contradicting the claim
that the equal-length invariant covers DecryptWithPkcs11. -/
theorem C1_paired_lengths_counterexample :
    isOkResult (DecryptWithPkcs11 [[0], [1]] [[2]]) = true ∧
    optLen (decFind (DecryptWithPkcs11 [[0], [1]] [[2]]) "modules") = some 2 ∧
    optLen (decFind (DecryptWithPkcs11 [[0], [1]] [[2]]) "pins") = some 1 :=
  ⟨rfl, by decide, by decide⟩

/-- Claim C1 as amended: the equal-length invariant for positionally
paired sequences holds for the constructors that validate it, namely the
modules and pins sequences of any successful EncryptWithPkcs11 result and
the privkeys and privkeys-passwords sequences of any successful
DecryptWithPrivKeys result; it does not extend to DecryptWithPkcs11. -/
theorem C1_paired_lengths_amended :
    (∀ modules pins : List Bytes, isOkResult (EncryptWithPkcs11 modules pins) = true →
       optLen (encFind (EncryptWithPkcs11 modules pins) "modules") =
         optLen (encFind (EncryptWithPkcs11 modules pins) "pins")) ∧
    (∀ ks pws : List Bytes, isOkResult (DecryptWithPrivKeys ks pws) = true →
       optLen (decFind (DecryptWithPrivKeys ks pws) "privkeys") =
         optLen (decFind (DecryptWithPrivKeys ks pws) "privkeys-passwords")) := by
  constructor
  · intro modules pins h
    by_cases hl : modules.length = pins.length
    · by_cases h1 : modules.length = 1
      · have hne : ¬ modules.length ≠ pins.length := by omega
        have hn1 : ¬ modules.length ≠ 1 := by omega
        have hp1 : pins.length = 1 := by omega
        simp [EncryptWithPkcs11, hne, hn1, hp1, encFind, Params.find, List.lookup, optLen, hl]
      · exfalso
        have hne : ¬ modules.length ≠ pins.length := by omega
        simp [EncryptWithPkcs11, hne, h1, isOkResult] at h
    · exfalso
      simp [EncryptWithPkcs11, hl, isOkResult] at h
  · intro ks pws h
    by_cases hl : ks.length = pws.length
    · have hne : ¬ ks.length ≠ pws.length := by omega
      simp [DecryptWithPrivKeys, hne, decFind, Params.find, List.lookup, optLen, hl]
    · exfalso
      simp [DecryptWithPrivKeys, hl, isOkResult] at h

/-- Witness for the amended claim C1 at concrete successful inputs. -/
theorem C1_paired_lengths_amended_witness :
    optLen (encFind (EncryptWithPkcs11 [[1]] [[2]]) "modules") =
      optLen (encFind (EncryptWithPkcs11 [[1]] [[2]]) "pins") ∧
    optLen (decFind (DecryptWithPrivKeys [[3]] [[4]]) "privkeys") =
      optLen (decFind (DecryptWithPrivKeys [[3]] [[4]]) "privkeys-passwords") :=
  ⟨C1_paired_lengths_amended.1 [[1]] [[2]] (by decide),
   C1_paired_lengths_amended.2 [[3]] [[4]] (by decide)⟩

/-- Claim C2: for every pair of module and pin sequences of unequal length
EncryptWithPkcs11 fails with the InvalidArgument length-mismatch error,
and on modules of length 2 against pins of length 1 it yields that error,
which differs from the UnsupportedConfiguration single-module error, so
the length check comes first. -/
theorem C2_pkcs11_length_mismatch_invalid_argument :
    (∀ modules pins : List Bytes, modules.length ≠ pins.length →
       EncryptWithPkcs11 modules pins = .error errModulesPinsLength) ∧
    isInvalidArgument errModulesPinsLength = true ∧
    isUnsupportedConfiguration errModulesPinsLength = false ∧
    EncryptWithPkcs11 [[1], [2]] [[3]] = .error errModulesPinsLength ∧
    errModulesPinsLength ≠ errSingleModule := by
  refine ⟨?_, by decide, by decide, by rfl, by decide⟩
  intro modules pins h
  simp [EncryptWithPkcs11, h]

/-- Witness for claim C2 at a concrete unequal-length input. -/
theorem C2_pkcs11_length_mismatch_witness :
    EncryptWithPkcs11 [[5]] [] = .error errModulesPinsLength :=
  C2_pkcs11_length_mismatch_invalid_argument.1 [[5]] [] (by decide)

/-- Claim C3: for equal-length module and pin sequences of size exactly 1,
EncryptWithPkcs11 succeeds, the encrypt parameter set maps modules and
pins to the inputs unchanged and in order, and the decrypt configuration
is empty. -/
theorem C3_pkcs11_single_module_success :
    ∀ modules pins : List Bytes, modules.length = 1 → pins.length = 1 →
      EncryptWithPkcs11 modules pins =
        .ok { EncryptConfig := some { Parameters := [("modules", modules), ("pins", pins)],
                                      DecryptConfig := { Parameters := [] } },
              DecryptConfig := some { Parameters := [] } } ∧
      encFind (EncryptWithPkcs11 modules pins) "modules" = some modules ∧
      encFind (EncryptWithPkcs11 modules pins) "pins" = some pins := by
  intro modules pins hm hp
  have hne : ¬ modules.length ≠ pins.length := by omega
  have h1 : ¬ modules.length ≠ 1 := by omega
  refine ⟨?_, ?_, ?_⟩ <;>
    simp [EncryptWithPkcs11, hne, h1, encFind, Params.find, List.lookup]

/-- Witness for claim C3 at a concrete single-module input. -/
theorem C3_pkcs11_single_module_witness :
    EncryptWithPkcs11 [[1]] [[2]] =
      .ok { EncryptConfig := some { Parameters := [("modules", [[1]]), ("pins", [[2]])],
                                    DecryptConfig := { Parameters := [] } },
            DecryptConfig := some { Parameters := [] } } ∧
    encFind (EncryptWithPkcs11 [[1]] [[2]]) "modules" = some [[1]] ∧
    encFind (EncryptWithPkcs11 [[1]] [[2]]) "pins" = some [[2]] :=
  C3_pkcs11_single_module_success [[1]] [[2]] rfl rfl

/-- Claim C4: for equal-length module and pin sequences of size at least 2,
EncryptWithPkcs11 fails with the UnsupportedConfiguration single-module
error and returns no configuration. -/
theorem C4_pkcs11_multi_module_unsupported :
    (∀ modules pins : List Bytes, modules.length = pins.length →
       2 ≤ modules.length →
       EncryptWithPkcs11 modules pins = .error errSingleModule) ∧
    isUnsupportedConfiguration errSingleModule = true := by
  refine ⟨?_, by decide⟩
  intro modules pins he h2
  have hne : ¬ modules.length ≠ pins.length := by omega
  have h1 : modules.length ≠ 1 := by omega
  simp [EncryptWithPkcs11, hne, h1]

/-- Witness for claim C4 at a concrete two-module input. -/
theorem C4_pkcs11_multi_module_witness :
    EncryptWithPkcs11 [[1], [2]] [[3], [4]] = .error errSingleModule :=
  C4_pkcs11_multi_module_unsupported.1 [[1], [2]] [[3], [4]] rfl (by decide)

end Ocicrypt

namespace Ocicrypt

/-- Claim C5: DecryptWithPrivKeys fails with the InvalidArgument error
exactly when the private-key and password sequences have unequal lengths;
with equal lengths, including both empty, it succeeds and the decrypt
parameter set maps privkeys and privkeys-passwords to the inputs
verbatim. -/
theorem C5_privkeys_pairing :
    ∀ privKeys privKeysPasswords : List Bytes,
      (privKeys.length ≠ privKeysPasswords.length →
         DecryptWithPrivKeys privKeys privKeysPasswords = .error errPrivKeysLength ∧
         isInvalidArgument errPrivKeysLength = true) ∧
      (privKeys.length = privKeysPasswords.length →
         DecryptWithPrivKeys privKeys privKeysPasswords =
           .ok { EncryptConfig := some
                   { Parameters := [],
                     DecryptConfig :=
                       { Parameters := [("privkeys", privKeys),
                                        ("privkeys-passwords", privKeysPasswords)] } },
                 DecryptConfig := some
                   { Parameters := [("privkeys", privKeys),
                                    ("privkeys-passwords", privKeysPasswords)] } } ∧
         decFind (DecryptWithPrivKeys privKeys privKeysPasswords) "privkeys" = some privKeys ∧
         decFind (DecryptWithPrivKeys privKeys privKeysPasswords) "privkeys-passwords" =
           some privKeysPasswords) := by
  intro privKeys privKeysPasswords
  constructor
  · intro h
    exact ⟨by simp [DecryptWithPrivKeys, h], by decide⟩
  · intro h
    have hne : ¬ privKeys.length ≠ privKeysPasswords.length := by omega
    refine ⟨?_, ?_, ?_⟩ <;>
      simp [DecryptWithPrivKeys, hne, decFind, Params.find, List.lookup]

/-- Witness for claim C5 on an unequal-length pair and on the empty
equal-length pair. -/
theorem C5_privkeys_pairing_witness :
    (DecryptWithPrivKeys [[1]] [] = .error errPrivKeysLength ∧
     isInvalidArgument errPrivKeysLength = true) ∧
    (DecryptWithPrivKeys [] [] =
       .ok { EncryptConfig := some
               { Parameters := [],
                 DecryptConfig :=
                   { Parameters := [("privkeys", []), ("privkeys-passwords", [])] } },
             DecryptConfig := some
               { Parameters := [("privkeys", []), ("privkeys-passwords", [])] } } ∧
     decFind (DecryptWithPrivKeys [] []) "privkeys" = some [] ∧
     decFind (DecryptWithPrivKeys [] []) "privkeys-passwords" = some []) :=
  ⟨(C5_privkeys_pairing [[1]] []).1 (by decide),
   (C5_privkeys_pairing [] []).2 rfl⟩

/-- Claim C6: DecryptWithPkcs11 and DecryptWithGpgPrivKeys succeed on
every pair of input sequences, including pairs of unequal length; they
perform no positional-length pairing validation. -/
theorem C6_decrypt_no_pairing_validation :
    ∀ a b : List Bytes,
      isOkResult (DecryptWithPkcs11 a b) = true ∧
      isOkResult (DecryptWithGpgPrivKeys a b) = true := by
  intro a b
  exact ⟨rfl, rfl⟩

/-- Claim C7: DecryptWithX509s always succeeds, its decrypt parameter set
maps x509s to the input list unchanged, and its encrypt configuration is
present with an empty parameter set; on the singleton list the lookup of
x509s returns exactly that list. -/
theorem C7_x509s_decrypt :
    ∀ x509s : List Bytes,
      DecryptWithX509s x509s =
        .ok { EncryptConfig := some { Parameters := [],
                                      DecryptConfig := { Parameters := [("x509s", x509s)] } },
              DecryptConfig := some { Parameters := [("x509s", x509s)] } } ∧
      decFind (DecryptWithX509s x509s) "x509s" = some x509s ∧
      decFind (DecryptWithX509s [[7]]) "x509s" = some [[7]] := by
  intro x509s
  refine ⟨rfl, ?_, by decide⟩
  simp [DecryptWithX509s, decFind, Params.find, List.lookup]

/-- Claim C8: every constructor of the family is deterministic; two calls
with identical inputs produce structurally equal configuration values. -/
theorem C8_constructors_deterministic :
    ∀ (a b : List Bytes) (k : Bytes),
      EncryptWithJwe a = EncryptWithJwe a ∧
      EncryptWithPkcs7 a = EncryptWithPkcs7 a ∧
      EncryptWithGpg a k = EncryptWithGpg a k ∧
      EncryptWithPkcs11 a b = EncryptWithPkcs11 a b ∧
      DecryptWithPrivKeys a b = DecryptWithPrivKeys a b ∧
      DecryptWithX509s a = DecryptWithX509s a ∧
      DecryptWithGpgPrivKeys a b = DecryptWithGpgPrivKeys a b ∧
      DecryptWithPkcs11 a b = DecryptWithPkcs11 a b := by
  intro a b k
  exact ⟨rfl, rfl, rfl, rfl, rfl, rfl, rfl, rfl⟩

/-- Claim C9: EncryptWithPkcs11 on two empty sequences passes the
equal-length check but fails the single-module check with the
UnsupportedConfiguration error, so equal lengths alone do not guarantee
success. -/
theorem C9_pkcs11_empty_modules_unsupported :
    EncryptWithPkcs11 [] [] = .error errSingleModule ∧
    isUnsupportedConfiguration errSingleModule = true ∧
    isOkResult (EncryptWithPkcs11 [] []) = false :=
  ⟨rfl, by decide, rfl⟩

/-- Claim C10: in every successful constructor result the decrypt
configuration embedded in the encrypt configuration equals the top-level
decrypt configuration, and for DecryptWithPrivKeys the embedded one
carries the full decrypt parameter set, not an empty one. -/
theorem C10_embedded_decrypt_config :
    ∀ (a b : List Bytes) (k : Bytes),
      (resultConsistent (EncryptWithJwe a) ∧
       resultConsistent (EncryptWithPkcs7 a) ∧
       resultConsistent (EncryptWithGpg a k) ∧
       resultConsistent (EncryptWithPkcs11 a b) ∧
       resultConsistent (DecryptWithPrivKeys a b) ∧
       resultConsistent (DecryptWithX509s a) ∧
       resultConsistent (DecryptWithGpgPrivKeys a b) ∧
       resultConsistent (DecryptWithPkcs11 a b)) ∧
      (a.length = b.length →
         encEmbeddedDecFind (DecryptWithPrivKeys a b) "privkeys" = some a ∧
         encEmbeddedDecFind (DecryptWithPrivKeys a b) "privkeys-passwords" = some b) := by
  intro a b k
  constructor
  · refine ⟨by trivial, by trivial, by trivial, ?_, ?_, by trivial, by trivial, by trivial⟩
    · unfold EncryptWithPkcs11
      split
      · trivial
      · split
        · trivial
        · trivial
    · unfold DecryptWithPrivKeys
      split
      · trivial
      · trivial
  · intro h
    have hne : ¬ a.length ≠ b.length := by omega
    refine ⟨?_, ?_⟩ <;>
      simp [DecryptWithPrivKeys, hne, encEmbeddedDecFind, Params.find, List.lookup]

/-- Witness for claim C10 at a concrete equal-length private-key input. -/
theorem C10_embedded_decrypt_config_witness :
    encEmbeddedDecFind (DecryptWithPrivKeys [[1]] [[2]]) "privkeys" = some [[1]] ∧
    encEmbeddedDecFind (DecryptWithPrivKeys [[1]] [[2]]) "privkeys-passwords" = some [[2]] :=
  (C10_embedded_decrypt_config [[1]] [[2]] [0]).2 rfl

end Ocicrypt
